import Mathlib

/-!
Verification of `pip/locations.py` (location resolver of a package manager).

The module is embedded shallowly: every ambient OS / interpreter probe the
Python code performs (temp dir, effective uid, `os.mkdir` success, `sys.prefix`,
marker-attribute presence, `os.path.isfile`/`exists`, `os.getcwd`,
`os.path.realpath`, the finalized distutils install command) is a field of an
explicit `Env` record, and each Python function becomes a Lean function of that
record.  Filesystem side effects (directory creation, delete-marker writing)
are reported in the result value instead of performed.  Stdlib path helpers
(`posixpath.join`, `normpath`, `abspath`, `dirname`, `isabs`) are translated
from their CPython definitions.
-/

set_option autoImplicit false

namespace PipLocations

/-- Failure modes of the module: `installationError` models
`pip.exceptions.InstallationError`, `systemExit` models `sys.exit(msg)`. -/
inductive PipError where
  | installationError (msg : String)
  | systemExit (msg : String)
  deriving DecidableEq, Repr

/-- The finalized distutils `install` command object, after
`finalize_options()`: the five `install_<key>` attributes for the scheme keys,
plus `install_lib` (which may be `None`). -/
structure InstallCmd where
  install_purelib : String
  install_platlib : String
  install_headers : String
  install_scripts : String
  install_data : String
  install_lib : Option String
  deriving DecidableEq, Repr

/-- Result of `_get_build_prefix` on success: the returned path, whether this
call created the directory (`os.mkdir` succeeded), and whether the delete
marker file was written. -/
structure BuildResult where
  path : String
  created : Bool
  markerWritten : Bool
  deriving DecidableEq, Repr

/-- Ambient OS and interpreter state read by `locations.py`.  Each field is
one external probe of the Python code:
`windows` = `pip.compat.WINDOWS`; `platform` = `sys.platform`;
`tempdir` = `tempfile.gettempdir()`; `username` = the resolved username;
`euid` = `os.geteuid()`; `mkdirOk` = whether `os.mkdir(path)` succeeds;
`markerOk` = whether writing the delete marker file succeeds;
`pathUid` = result of `get_path_uid(path)` (`none` when it raises `OSError`,
e.g. for a symlink); `hasRealPfx` = `hasattr(sys, "real_prefix")`;
`sysPfx` = `sys.prefix`; `basePfx` = `sys.base_prefix` when the attribute is
present; `pyVersion` = `sys.version[:3]`; `siteFile` = `site.__file__`;
`userSite` = `site.USER_SITE`; `cwd`/`cwdOk` = `os.getcwd()` and whether it
succeeds; `isfile` = `os.path.isfile`; `pathExists` = `os.path.exists`;
`realpath` = `os.path.realpath`; `finalize` = the distutils collaborator:
given `(dist_name, user, home, root)` it returns the finalized install
command. -/
structure Env where
  windows : Bool
  platform : String
  tempdir : String
  username : String
  euid : Nat
  mkdirOk : Bool
  markerOk : Bool
  pathUid : Option Nat
  hasRealPfx : Bool
  sysPfx : String
  basePfx : Option String
  pyVersion : String
  siteFile : String
  userSite : String
  cwd : String
  cwdOk : Bool
  isfile : String → Bool
  pathExists : String → Bool
  realpath : String → String
  finalize : String → Bool → Option String → Option String → InstallCmd

/-- CPython `posixpath.isabs`: a path is absolute iff it starts with the
separator. -/
def isAbs (p : String) : Bool :=
  decide (p.data.head? = some '/')

/-- The count of initial slashes kept by `posixpath.normpath`: POSIX allows
one or two initial slashes, three or more collapse to one. -/
def initSlashes (p : String) : Nat :=
  if p.data.take 3 = ['/', '/', '/'] then 1
  else if p.data.take 2 = ['/', '/'] then 2
  else if p.data.take 1 = ['/'] then 1
  else 0

/-- Split a character list at every separator, as Python `p.split("/")`
(keeping empty components). -/
def splitSlash : List Char → List String
  | [] => [""]
  | '/' :: rest => "" :: splitSlash rest
  | c :: rest =>
    match splitSlash rest with
    | [] => [String.mk [c]]
    | s :: ss => (String.mk [c] ++ s) :: ss

/-- Join components with the separator, as Python `"/".join(comps)`. -/
def joinSlash : List String → String
  | [] => ""
  | [s] => s
  | s :: ss => s ++ "/" ++ joinSlash ss

/-- One step of the component loop of `posixpath.normpath`. -/
def normStep (n : Nat) (acc : List String) (comp : String) : List String :=
  if comp = "" ∨ comp = "." then acc
  else if comp ≠ ".." ∨ (n = 0 ∧ acc = []) ∨ acc.getLast? = some ".." then
    acc ++ [comp]
  else if acc ≠ [] then acc.dropLast
  else acc

/-- Body of `posixpath.normpath` for a nonempty path: the kept initial
slashes followed by the rejoined filtered components. -/
def normRes (p : String) : String :=
  String.mk (List.replicate (initSlashes p) '/') ++
    joinSlash ((splitSlash p.data).foldl (normStep (initSlashes p)) [])

/-- CPython `posixpath.normpath`: collapse redundant separators, `.` and `..`
components (returning `.` for an empty result, as the Python `or`). -/
def normpath (p : String) : String :=
  if p = "" then "."
  else if normRes p = "" then "." else normRes p

/-- Whether a path ends with the separator, as Python `p.endswith("/")`. -/
def endsWithSlash (s : String) : Bool :=
  s.data.getLast? = some '/'

/-- CPython `posixpath.join` restricted to two arguments: if the second is
absolute it wins; otherwise append, inserting a separator unless the first
part is empty or already ends with one. -/
def joinPath (a b : String) : String :=
  if isAbs b then b
  else if a = "" ∨ endsWithSlash a then a ++ b
  else a ++ "/" ++ b

/-- CPython `posixpath.abspath`: join with the working directory when the path
is relative, then normalize. -/
def abspath (cwd p : String) : String :=
  if isAbs p then normpath p else normpath (joinPath cwd p)

/-- CPython `posixpath.dirname`: everything up to the last separator, with
trailing separators stripped unless the head is all separators. -/
def dirname (p : String) : String :=
  let head := (p.data.reverse.dropWhile (fun c => c ≠ '/')).reverse
  let head := if head ≠ [] ∧ head.any (fun c => c ≠ '/') then
      (head.reverse.dropWhile (fun c => c = '/')).reverse
    else head
  String.mk head

/-- Embeds `running_under_virtualenv()`: true when the legacy `sys.real_prefix`
attribute is present, or when `sys.prefix` differs from
`getattr(sys, "base_prefix", sys.prefix)`. -/
def running_under_virtualenv (e : Env) : Bool :=
  if e.hasRealPfx then true
  else if e.sysPfx ≠ e.basePfx.getD e.sysPfx then true
  else false

/-- Embeds `virtualenv_no_global()`.  The Python function returns `True` when in a
venv and the marker file exists, and otherwise falls off the end, returning
`None`; the result type `Option Bool` records that distinction (`some true`
for `True`, `none` for the implicit `None`). -/
def virtualenv_no_global (e : Env) : Option Bool :=
  let site_mod_dir := dirname (abspath e.cwd e.siteFile)
  let no_global_file := joinPath site_mod_dir "no-global-site-packages.txt"
  if running_under_virtualenv e && e.isfile no_global_file then some true
  else none

/-- Python `s.replace(c, d)` for single-character arguments: replace every
occurrence of the character. -/
def replaceChar (c d : Char) (s : String) : String :=
  String.mk (s.data.map (fun x => if x = c then d else x))

/-- The path `_get_build_prefix` constructs:
`os.path.join(tempfile.gettempdir(), "pip_build_%s" % username.replace(" ", "_"))`. -/
def buildPath (e : Env) : String :=
  joinPath e.tempdir ("pip_build_" ++ replaceChar ' ' '_' e.username)

/-- The message of the `InstallationError` raised by `_get_build_prefix`. -/
def ownErrMsg (path : String) : String :=
  "The temporary folder for building (" ++ path ++
    ") is either not owned by you, or is a symlink."

/-- Embeds `_get_build_prefix()`: construct the build path; on Windows return it
directly (no creation, no marker).  Otherwise try `os.mkdir` plus marker
write; on `OSError` fetch the owner uid of the existing path (`none` when
`get_path_uid` itself raises, e.g. for a symlink) and raise an
`InstallationError` unless it equals the effective uid. -/
def get_build_path (e : Env) : Except PipError BuildResult :=
  let path := buildPath e
  if e.windows then .ok ⟨path, false, false⟩
  else if e.mkdirOk && e.markerOk then .ok ⟨path, true, true⟩
  else if e.pathUid ≠ some e.euid then .error (.installationError (ownErrMsg path))
  else .ok ⟨path, e.mkdirOk, false⟩

/-- Message of the `sys.exit` call when the working directory is gone. -/
def cwdGoneMsg : String :=
  "The folder you are executing pip from can no longer be found."

/-- The module-level computation of `build_prefix` and `src_prefix`:
in a venv both live under `sys.prefix`; otherwise `_get_build_prefix()` runs
(possibly raising) and `src` hangs off the working directory, exiting when
`os.getcwd()` fails.  Afterwards `build_prefix` passes through
`os.path.abspath(os.path.realpath(...))` and `src_prefix` through
`os.path.abspath(...)` only. -/
def resolvePrefixes (e : Env) : Except PipError (String × String) :=
  if running_under_virtualenv e then
    .ok (abspath e.cwd (e.realpath (joinPath e.sysPfx "build")),
         abspath e.cwd (joinPath e.sysPfx "src"))
  else
    match get_build_path e with
    | .error err => .error err
    | .ok r =>
      if e.cwdOk then
        .ok (abspath e.cwd (e.realpath r.path),
             abspath e.cwd (joinPath e.cwd "src"))
      else .error (.systemExit cwdGoneMsg)

/-- The module-level computation of `(bin_py, bin_user)`: on Windows the
`Scripts` pair, falling back to the `bin` pair when the primary `Scripts`
directory does not exist; on POSIX the `bin` pair, with `bin_py` forced to
`/usr/local/bin` for Mac framework builds. -/
def resolveBinPaths (e : Env) : String × String :=
  if e.windows then
    let bp := joinPath e.sysPfx "Scripts"
    let bu := joinPath e.userSite "Scripts"
    if ¬ e.pathExists bp then
      (joinPath e.sysPfx "bin", joinPath e.userSite "bin")
    else (bp, bu)
  else
    let bp := joinPath e.sysPfx "bin"
    let bu := joinPath e.userSite "bin"
    if String.mk (e.platform.data.take 6) = "darwin" ∧
        String.mk (e.sysPfx.data.take 16) = "/System/Library/" then
      ("/usr/local/bin", bu)
    else (bp, bu)

/-- The distutils constant `SCHEME_KEYS`. -/
def SCHEME_KEYS : List String := ["purelib", "platlib", "headers", "scripts", "data"]

/-- Python `dict` assignment `d[k] = v` on an insertion-ordered association
list: replace in place when the key is present, else append. -/
def dset (d : List (String × String)) (k v : String) : List (String × String) :=
  if d.any (fun p => p.1 = k) then
    d.map (fun p => if p.1 = k then (k, v) else p)
  else d ++ [(k, v)]

/-- Python `dict` lookup `d.get(k)`. -/
def dget (d : List (String × String)) (k : String) : Option String :=
  (d.find? (fun p => p.1 = k)).map (fun p => p.2)

/-- Models `getattr(i, "install_" + key)` for a scheme key. -/
def getInstall (i : InstallCmd) (key : String) : String :=
  if key = "purelib" then i.install_purelib
  else if key = "platlib" then i.install_platlib
  else if key = "headers" then i.install_headers
  else if key = "scripts" then i.install_scripts
  else i.install_data

/-- The venv headers path of `distutils_scheme`:
`os.path.join(sys.prefix, "include", "site", "python" + sys.version[:3], dist_name)`. -/
def venvHeaders (e : Env) (dist_name : String) : String :=
  joinPath (joinPath (joinPath (joinPath e.sysPfx "include") "site")
    ("python" ++ e.pyVersion)) dist_name

/-- Embeds `distutils_scheme(dist_name, user, home, root)`: build the dict from the
finalized install command over `SCHEME_KEYS`; when `install_lib` is not
`None` it overrides both `purelib` and `platlib`; in a venv the `headers`
entry becomes `<sys.prefix>/include/site/python<ver>/<dist_name>`, re-rooted
under `root` (joined with the absolutized headers path minus its first
character) when `root` is supplied. -/
def distutils_scheme (e : Env) (dist_name : String) (user : Bool)
    (home root : Option String) : List (String × String) :=
  let i := e.finalize dist_name user home root
  let scheme := SCHEME_KEYS.foldl (fun d key => dset d key (getInstall i key)) []
  let scheme := match i.install_lib with
    | some l => dset (dset scheme "purelib" l) "platlib" l
    | none => scheme
  if running_under_virtualenv e then
    let vh := venvHeaders e dist_name
    let scheme := dset scheme "headers" vh
    match root with
    | some r => dset scheme "headers"
        (joinPath r (String.mk ((abspath e.cwd vh).data.drop 1)))
    | none => scheme
  else scheme

/-! ## Concrete environments used to evaluate the development -/

/-- A plain POSIX environment outside any virtualenv: `/tmp` temp dir, user
`alice` with uid 1000, no marker attribute, equal prefixes, benign
filesystem probes, identity `realpath`, and a fixed finalized install
command with `install_lib = None`. -/
def baseEnv : Env := {
  windows := false, platform := "linux2", tempdir := "/tmp", username := "alice",
  euid := 1000, mkdirOk := true, markerOk := true, pathUid := some 1000,
  hasRealPfx := false, sysPfx := "/usr", basePfx := none, pyVersion := "2.7",
  siteFile := "/usr/lib/python2.7/site.py",
  userSite := "/home/alice/.local/lib/python2.7/site-packages",
  cwd := "/home/alice", cwdOk := true,
  isfile := fun _ => false, pathExists := fun _ => true,
  realpath := fun p => p,
  finalize := fun _ _ _ _ =>
    ⟨"/usr/lib/python2.7/site-packages", "/usr/lib/python2.7/site-packages",
     "/usr/include/python2.7/pkg", "/usr/bin", "/usr", none⟩ }

/-- Pre-existing build directory that is a symlink: `os.mkdir` fails and
`get_path_uid` raises. -/
def envC1 : Env := { baseEnv with mkdirOk := false, pathUid := none }

/-- Outside a virtualenv but with every file reported present, so the
no-global marker file exists. -/
def envC2 : Env := { baseEnv with isfile := fun _ => true }

/-- Legacy `real_prefix` marker present while the prefixes are equal. -/
def envC3a : Env := { baseEnv with hasRealPfx := true, basePfx := some "/usr" }

/-- Windows environment with a space in the username. -/
def envC4 : Env := { baseEnv with windows := true, username := "John Smith" }

/-- Environment whose finalized install command has `install_lib` set. -/
def envC5 : Env := { baseEnv with
  finalize := fun _ _ _ _ =>
    ⟨"/usr/lib/python2.7/site-packages", "/usr/lib/python2.7/site-packages",
     "/usr/include/python2.7/pkg", "/usr/bin", "/usr", some "/custom/lib"⟩ }

/-- A virtualenv rooted at `/venv` (legacy marker set). -/
def venvEnv : Env := { baseEnv with hasRealPfx := true, sysPfx := "/venv" }

/-- A virtualenv whose `src` path is a symlink: `realpath` maps it
elsewhere. -/
def cexEnv7 : Env := { venvEnv with
  realpath := fun p => if p = "/venv/src" then "/data/realsrc" else p }

/-- Windows environment where the primary `Scripts` directory is missing. -/
def envC8a : Env := { baseEnv with windows := true, pathExists := fun _ => false }

/-- Windows environment where the primary `Scripts` directory exists. -/
def envC8b : Env := { baseEnv with windows := true, pathExists := fun _ => true }

/-- Pre-existing build directory owned by the current user: `os.mkdir`
fails but `get_path_uid` returns the effective uid. -/
def envC9 : Env := { baseEnv with mkdirOk := false, pathUid := some 1000 }

/-! ## Dictionary lemmas -/

/-- Lookup after in-place replacement of an existing key. -/
theorem dget_map_set_self (d : List (String × String)) (k v : String)
    (h : d.any (fun p => p.1 = k) = true) :
    dget (d.map (fun p => if p.1 = k then (k, v) else p)) k = some v := by
  induction d with
  | nil => simp at h
  | cons p d2 ih =>
    by_cases hp : p.1 = k
    · rw [List.map_cons, if_pos hp]
      rw [dget, List.find?_cons_of_pos _ (by simp)]
      rfl
    · rw [List.map_cons, if_neg hp]
      rw [dget, List.find?_cons_of_neg _ (by simpa using hp)]
      simp only [List.any_cons, Bool.or_eq_true, decide_eq_true_eq] at h
      rcases h with h | h
      · exact absurd h hp
      · exact ih h

/-- Lookup after appending a fresh key. -/
theorem dget_append_self (d : List (String × String)) (k v : String)
    (h : d.any (fun p => p.1 = k) = false) :
    dget (d ++ [(k, v)]) k = some v := by
  induction d with
  | nil => simp [dget, List.find?]
  | cons p d2 ih =>
    rw [Bool.eq_false_iff] at h
    rw [List.any_cons] at h
    simp only [ne_eq, Bool.or_eq_true, decide_eq_true_eq, not_or] at h
    rw [List.cons_append, dget, List.find?_cons_of_neg _ (by simpa using h.1)]
    exact ih (Bool.eq_false_iff.mpr h.2)

/-- Replacing the value at key `k2` does not change lookup of `k`. -/
theorem dget_map_set_other (d : List (String × String)) (k k2 v : String)
    (h : k ≠ k2) :
    dget (d.map (fun p => if p.1 = k2 then (k2, v) else p)) k = dget d k := by
  induction d with
  | nil => simp
  | cons p d2 ih =>
    by_cases hp : p.1 = k2
    · rw [List.map_cons, if_pos hp]
      rw [dget, List.find?_cons_of_neg _ (by simpa using Ne.symm h),
          dget, List.find?_cons_of_neg _ (by simpa using (hp ▸ Ne.symm h : ¬ p.1 = k))]
      exact ih
    · by_cases hk : p.1 = k
      · rw [List.map_cons, if_neg hp]
        rw [dget, List.find?_cons_of_pos _ (by simpa using hk),
            dget, List.find?_cons_of_pos _ (by simpa using hk)]
      · rw [List.map_cons, if_neg hp]
        rw [dget, List.find?_cons_of_neg _ (by simpa using hk),
            dget, List.find?_cons_of_neg _ (by simpa using hk)]
        exact ih

/-- Appending an entry with key `k2` does not change lookup of `k`. -/
theorem dget_append_other (d : List (String × String)) (k k2 v : String)
    (h : k ≠ k2) :
    dget (d ++ [(k2, v)]) k = dget d k := by
  induction d with
  | nil =>
    rw [List.nil_append, dget, List.find?_cons_of_neg _ (by simpa using Ne.symm h)]
    simp [dget]
  | cons p d2 ih =>
    by_cases hk : p.1 = k
    · rw [List.cons_append, dget, List.find?_cons_of_pos _ (by simpa using hk),
          dget, List.find?_cons_of_pos _ (by simpa using hk)]
    · rw [List.cons_append, dget, List.find?_cons_of_neg _ (by simpa using hk),
          dget, List.find?_cons_of_neg _ (by simpa using hk)]
      exact ih

/-- Setting a key makes lookup of that key return the new value. -/
theorem dget_dset_self (d : List (String × String)) (k v : String) :
    dget (dset d k v) k = some v := by
  unfold dset
  by_cases h : d.any (fun p => p.1 = k) = true
  · rw [if_pos h]
    exact dget_map_set_self d k v h
  · rw [if_neg h]
    exact dget_append_self d k v (Bool.eq_false_iff.mpr h)

/-- Setting one key leaves lookup of a different key unchanged. -/
theorem dget_dset_other (d : List (String × String)) (k k2 v : String)
    (h : k ≠ k2) : dget (dset d k2 v) k = dget d k := by
  unfold dset
  by_cases ha : d.any (fun p => p.1 = k2) = true
  · rw [if_pos ha]
    exact dget_map_set_other d k k2 v h
  · rw [if_neg ha]
    exact dget_append_other d k k2 v h

/-! ## Absoluteness lemmas -/

/-- An absolute path has a positive initial-slash count. -/
theorem initSlashes_pos (p : String) (h : isAbs p = true) : initSlashes p ≠ 0 := by
  rw [isAbs, decide_eq_true_eq] at h
  rw [initSlashes]
  split
  · exact one_ne_zero
  · split
    · exact two_ne_zero
    · split
      · exact one_ne_zero
      · next h1 h2 h3 =>
        exfalso
        apply h3
        rcases hd : p.data with _ | ⟨c, l⟩
        · rw [hd] at h
          simp at h
        · rw [hd] at h
          simp only [List.head?_cons, Option.some.injEq] at h
          rw [h]
          simp

/-- The normalized body of an absolute path starts with a separator. -/
theorem normRes_abs (p : String) (h : isAbs p = true) :
    ∃ l, (normRes p).data = '/' :: l := by
  have hn := initSlashes_pos p h
  obtain ⟨m, hm⟩ : ∃ m, initSlashes p = m + 1 := ⟨initSlashes p - 1, by omega⟩
  refine ⟨List.replicate m '/' ++
    (joinSlash ((splitSlash p.data).foldl (normStep (initSlashes p)) [])).data, ?_⟩
  show List.replicate (initSlashes p) '/' ++
    (joinSlash ((splitSlash p.data).foldl (normStep (initSlashes p)) [])).data = _
  rw [hm, List.replicate_succ, List.cons_append]

/-- The normalization of an absolute path is absolute. -/
theorem isAbs_normpath (p : String) (h : isAbs p = true) :
    isAbs (normpath p) = true := by
  have hne : p ≠ "" := by
    intro he
    rw [he] at h
    simp [isAbs] at h
  obtain ⟨l, hl⟩ := normRes_abs p h
  have hres : normRes p ≠ "" := by
    intro he
    rw [he] at hl
    exact List.noConfusion hl
  rw [normpath, if_neg hne, if_neg hres, isAbs, hl]
  simp

/-- Appending anything to an absolute path keeps it absolute. -/
theorem isAbs_append (a b : String) (h : isAbs a = true) :
    isAbs (a ++ b) = true := by
  rw [isAbs, decide_eq_true_eq] at h
  rw [isAbs, decide_eq_true_eq]
  show (a.data ++ b.data).head? = some '/'
  rcases hd : a.data with _ | ⟨c, l⟩
  · rw [hd] at h
    simp at h
  · rw [hd] at h
    simp only [List.head?_cons, Option.some.injEq] at h
    rw [List.cons_append, List.head?_cons, h]

/-- Joining onto an absolute base yields an absolute path. -/
theorem isAbs_joinPath (a b : String) (h : isAbs a = true) :
    isAbs (joinPath a b) = true := by
  rw [joinPath]
  split
  · next hb => exact hb
  · split
    · exact isAbs_append a b h
    · exact isAbs_append _ _ (isAbs_append a "/" h)

/-- With an absolute working directory, `abspath` always produces an
absolute path. -/
theorem isAbs_abspath (cwd p : String) (h : isAbs cwd = true) :
    isAbs (abspath cwd p) = true := by
  rw [abspath]
  split
  · next hp => exact isAbs_normpath p hp
  · exact isAbs_normpath _ (isAbs_joinPath cwd p h)

/-! ## Scheme-key lemmas -/

/-- The initial fold over `SCHEME_KEYS` produces the five-entry dict in key
order. -/
theorem scheme_keys_foldl (i : InstallCmd) :
    SCHEME_KEYS.foldl (fun d key => dset d key (getInstall i key)) [] =
      [("purelib", i.install_purelib), ("platlib", i.install_platlib),
       ("headers", i.install_headers), ("scripts", i.install_scripts),
       ("data", i.install_data)] := rfl

/-- In-place update of an existing key preserves the key list. -/
theorem keys_dset_of_mem (d : List (String × String)) (k v : String)
    (h : d.any (fun p => p.1 = k) = true) :
    (dset d k v).map Prod.fst = d.map Prod.fst := by
  rw [dset, if_pos h, List.map_map]
  apply List.map_congr_left
  intro p hp
  by_cases hk : p.1 = k
  · simp [hk]
  · simp [hk]

/-- A key occurring in the key list is found by `List.any`. -/
theorem any_key_of_keys (d : List (String × String)) (k : String)
    (h : k ∈ d.map Prod.fst) : d.any (fun p => p.1 = k) = true := by
  simp only [List.any_eq_true, decide_eq_true_eq]
  rcases List.mem_map.mp h with ⟨p, hp, hk⟩
  exact ⟨p, hp, hk⟩

/-- Updating a scheme key of a dict with the scheme key list keeps that key
list. -/
theorem keys_dset_scheme (d : List (String × String)) (k v : String)
    (hd : d.map Prod.fst = SCHEME_KEYS) (hk : k ∈ SCHEME_KEYS) :
    (dset d k v).map Prod.fst = SCHEME_KEYS := by
  rw [keys_dset_of_mem d k v (any_key_of_keys d k (by rw [hd]; exact hk)), hd]

/-! ## Claims -/

/-- C1: for every pre-existing build directory (`os.mkdir` fails) whose
owner uid differs from the effective uid — including the symlink case where
the uid cannot be determined — `_get_build_prefix` raises an
`InstallationError` instead of returning the path. -/
theorem c1_theorem (e : Env) (hw : e.windows = false) (hm : e.mkdirOk = false)
    (hu : e.pathUid ≠ some e.euid) :
    get_build_path e = .error (.installationError (ownErrMsg (buildPath e))) := by
  unfold get_build_path
  rw [if_neg (by rw [hw]; exact Bool.false_ne_true)]
  rw [if_neg (by rw [hm]; simp)]
  rw [if_pos hu]

/-- Witness for C1: a symlinked pre-existing build directory raises. -/
theorem c1_witness :
    get_build_path envC1 =
      .error (.installationError (ownErrMsg "/tmp/pip_build_alice")) :=
  c1_theorem envC1 rfl rfl (by decide)

/-- C2 (amended): whenever `running_under_virtualenv()` is false,
`virtualenv_no_global()` returns `None` (not the value `False`), independent
of marker-file presence. -/
theorem c2_theorem (e : Env) (h : running_under_virtualenv e = false) :
    virtualenv_no_global e = none := by
  unfold virtualenv_no_global
  rw [h]
  simp

/-- Witness for C2: outside a venv with the marker file present, the result
is `None`. -/
theorem c2_witness : virtualenv_no_global envC2 = none :=
  c2_theorem envC2 (by decide)

/-- Counterexample for C2 as stated: outside a venv the function returns
`None`, not an actual `False` value. -/
theorem c2_counterexample :
    running_under_virtualenv envC2 = false ∧
      virtualenv_no_global envC2 = none ∧
      virtualenv_no_global envC2 ≠ some false := by
  refine ⟨rfl, by decide, by decide⟩

/-- C3: `running_under_virtualenv()` is true whenever the legacy
`real_prefix` marker is present, regardless of prefix equality; and false
whenever the marker is absent and the active prefix equals the (defaulted)
base prefix. -/
theorem c3_theorem (e : Env) :
    (e.hasRealPfx = true → running_under_virtualenv e = true) ∧
    (e.hasRealPfx = false → e.basePfx.getD e.sysPfx = e.sysPfx →
      running_under_virtualenv e = false) := by
  constructor
  · intro h
    unfold running_under_virtualenv
    rw [h]
    simp
  · intro h1 h2
    unfold running_under_virtualenv
    rw [h1]
    simp [h2]

/-- Witness for C3: marker present with equal prefixes gives true; marker
absent with equal prefixes gives false. -/
theorem c3_witness :
    running_under_virtualenv envC3a = true ∧
      running_under_virtualenv baseEnv = false :=
  ⟨(c3_theorem envC3a).1 rfl, (c3_theorem baseEnv).2 rfl (by decide)⟩

/-- C4: the build path is the system temp directory joined with
`pip_build_` plus the username with spaces replaced by underscores, and on
Windows it is returned directly with no directory creation and no marker
write. -/
theorem c4_theorem (e : Env) (hw : e.windows = true) :
    get_build_path e =
      .ok ⟨joinPath e.tempdir ("pip_build_" ++ replaceChar ' ' '_' e.username),
           false, false⟩ := by
  unfold get_build_path buildPath
  rw [if_pos hw]

/-- Witness for C4: a Windows username with a space. -/
theorem c4_witness :
    get_build_path envC4 = .ok ⟨"/tmp/pip_build_John_Smith", false, false⟩ :=
  c4_theorem envC4 rfl

/-- C9: on POSIX, when `os.mkdir` fails but the existing path is owned by
the effective uid, the path is returned with no error and no marker write;
and the marker is written only when this call created the directory. -/
theorem c9_theorem (e : Env) (hw : e.windows = false) (hm : e.mkdirOk = false)
    (hu : e.pathUid = some e.euid) :
    get_build_path e = .ok ⟨buildPath e, false, false⟩ ∧
    (∀ e2 r, get_build_path e2 = .ok r → r.markerWritten = true →
      r.created = true ∧ e2.mkdirOk = true) := by
  constructor
  · unfold get_build_path
    rw [if_neg (by rw [hw]; exact Bool.false_ne_true)]
    rw [if_neg (by rw [hm]; simp)]
    rw [if_neg (by simp [hu]), hm]
  · intro e2 r hok hmk
    unfold get_build_path at hok
    split at hok
    · cases hok
      simp at hmk
    · split at hok
      · next hcond =>
        cases hok
        rw [Bool.and_eq_true] at hcond
        exact ⟨rfl, hcond.1⟩
      · split at hok
        · exact Except.noConfusion hok
        · cases hok
          simp at hmk

/-- Witness for C9: owned pre-existing directory is returned untouched. -/
theorem c9_witness :
    get_build_path envC9 = .ok ⟨"/tmp/pip_build_alice", false, false⟩ :=
  (c9_theorem envC9 rfl rfl rfl).1

/-- C5: whenever the finalized install command has a non-`None`
`install_lib`, the returned scheme maps both `purelib` and `platlib` to that
value. -/
theorem c5_theorem (e : Env) (dn : String) (user : Bool)
    (home root : Option String) (l : String)
    (h : (e.finalize dn user home root).install_lib = some l) :
    dget (distutils_scheme e dn user home root) "purelib" = some l ∧
    dget (distutils_scheme e dn user home root) "platlib" = some l := by
  refine ⟨?_, ?_⟩ <;>
  · simp only [distutils_scheme, h]
    split
    · split
      all_goals
        repeat
          first
            | rw [dget_dset_self]
            | rw [dget_dset_other _ "purelib" "headers" _ (by decide)]
            | rw [dget_dset_other _ "purelib" "platlib" _ (by decide)]
            | rw [dget_dset_other _ "platlib" "headers" _ (by decide)]
    · repeat
        first
          | rw [dget_dset_self]
          | rw [dget_dset_other _ "purelib" "platlib" _ (by decide)]

/-- Witness for C5: `install_lib = /custom/lib` overrides both entries. -/
theorem c5_witness :
    dget (distutils_scheme envC5 "pkg" false none none) "purelib" =
        some "/custom/lib" ∧
      dget (distutils_scheme envC5 "pkg" false none none) "platlib" =
        some "/custom/lib" :=
  c5_theorem envC5 "pkg" false none none "/custom/lib" rfl

/-- C6: inside a virtualenv, with a `root` override the `headers` entry is
`root` joined with the absolutized venv headers path stripped of its first
character; without `root` it is the venv headers path itself. -/
theorem c6_theorem (e : Env) (dn : String) (user : Bool) (home : Option String)
    (hv : running_under_virtualenv e = true) :
    (∀ r, dget (distutils_scheme e dn user home (some r)) "headers" =
      some (joinPath r
        (String.mk ((abspath e.cwd (venvHeaders e dn)).data.drop 1)))) ∧
    dget (distutils_scheme e dn user home none) "headers" =
      some (venvHeaders e dn) := by
  constructor
  · intro r
    simp only [distutils_scheme, hv, if_true]
    rw [dget_dset_self]
  · simp only [distutils_scheme, hv, if_true]
    rw [dget_dset_self]

/-- Witness for C6: in the `/venv` environment the rooted and unrooted
headers paths evaluate concretely. -/
theorem c6_witness :
    dget (distutils_scheme venvEnv "pkg" false none (some "/alt/root"))
        "headers" = some "/alt/root/venv/include/site/python2.7/pkg" ∧
      dget (distutils_scheme venvEnv "pkg" false none none) "headers" =
        some "/venv/include/site/python2.7/pkg" :=
  ⟨(c6_theorem venvEnv "pkg" false none (by decide)).1 "/alt/root",
   (c6_theorem venvEnv "pkg" false none (by decide)).2⟩

/-- C7 (amended): every pair produced by the module initialization is
absolute (given an absolute working directory); the build half is
symlink-resolved through `realpath` before normalization, while the src
half only passes through `abspath`. -/
theorem c7_theorem (e : Env) (b s : String) (hcwd : isAbs e.cwd = true)
    (h : resolvePrefixes e = .ok (b, s)) :
    (isAbs b = true ∧ isAbs s = true) ∧
    (∃ rawb, b = abspath e.cwd (e.realpath rawb)) ∧
    (∃ raws, s = abspath e.cwd raws) := by
  unfold resolvePrefixes at h
  split at h
  · rw [Except.ok.injEq, Prod.mk.injEq] at h
    obtain ⟨hb, hs⟩ := h
    subst hb
    subst hs
    exact ⟨⟨isAbs_abspath _ _ hcwd, isAbs_abspath _ _ hcwd⟩, ⟨_, rfl⟩, ⟨_, rfl⟩⟩
  · split at h
    · exact Except.noConfusion h
    · split at h
      · rw [Except.ok.injEq, Prod.mk.injEq] at h
        obtain ⟨hb, hs⟩ := h
        subst hb
        subst hs
        exact ⟨⟨isAbs_abspath _ _ hcwd, isAbs_abspath _ _ hcwd⟩, ⟨_, rfl⟩, ⟨_, rfl⟩⟩
      · exact Except.noConfusion h

/-- Witness for C7: the venv environment yields the absolute pair. -/
theorem c7_witness :
    (isAbs "/venv/build" = true ∧ isAbs "/venv/src" = true) ∧
    (∃ rawb, "/venv/build" = abspath venvEnv.cwd (venvEnv.realpath rawb)) ∧
    (∃ raws, "/venv/src" = abspath venvEnv.cwd raws) :=
  c7_theorem venvEnv "/venv/build" "/venv/src" (by decide) rfl

/-- Counterexample for C7 as stated: the produced `src_prefix` is not in
real-path form — `realpath` maps it elsewhere, because the code applies
`realpath` only to `build_prefix`. -/
theorem c7_counterexample :
    resolvePrefixes cexEnv7 = .ok ("/venv/build", "/venv/src") ∧
      cexEnv7.realpath "/venv/src" ≠ "/venv/src" :=
  ⟨rfl, by decide⟩

/-- C8: on the Windows branch, when the primary `Scripts` directory does not
exist both paths fall back to the `bin` pair, and otherwise both use the
`Scripts` pair. -/
theorem c8_theorem (e : Env) (hw : e.windows = true) :
    (e.pathExists (joinPath e.sysPfx "Scripts") = false →
      resolveBinPaths e =
        (joinPath e.sysPfx "bin", joinPath e.userSite "bin")) ∧
    (e.pathExists (joinPath e.sysPfx "Scripts") = true →
      resolveBinPaths e =
        (joinPath e.sysPfx "Scripts", joinPath e.userSite "Scripts")) := by
  constructor <;> intro h <;>
  · unfold resolveBinPaths
    rw [if_pos hw]
    simp [h]

/-- Witness for C8: both Windows environments evaluate to the expected
pairs. -/
theorem c8_witness :
    resolveBinPaths envC8a =
        ("/usr/bin", "/home/alice/.local/lib/python2.7/site-packages/bin") ∧
      resolveBinPaths envC8b =
        ("/usr/Scripts",
         "/home/alice/.local/lib/python2.7/site-packages/Scripts") :=
  ⟨(c8_theorem envC8a rfl).1 rfl, (c8_theorem envC8b rfl).2 rfl⟩

/-- C10: for every combination of arguments the returned scheme has exactly
the five keys `purelib`, `platlib`, `headers`, `scripts`, `data`, in that
order. -/
theorem c10_theorem (e : Env) (dn : String) (user : Bool)
    (home root : Option String) :
    (distutils_scheme e dn user home root).map Prod.fst = SCHEME_KEYS := by
  simp only [distutils_scheme]
  repeat' split
  all_goals
    repeat
      first
        | refine keys_dset_scheme _ _ _ ?_ (by decide)
        | (rw [scheme_keys_foldl])
  all_goals rfl

end PipLocations
